import Mathlib

/-!
Shallow embedding of `src/anthropic_api_fundamentals/getting_started.py`.

The script loads a `.env` file into the process environment, reads the
credential `ANTHROPIC_API_KEY`, constructs a client, issues a single
`messages.create` request, and prints the text of the first content block
of the response when that block is a text block.

The third-party libraries (`python-dotenv` and the `anthropic` client) are
not part of this repository; where a claim depends on their behaviour the
corresponding definition is modelled from the spec, and is marked as such
in its doc comment.  The script itself is translated line by line into the
function `run` below, which returns the uncaught error (if any) together
with the trace of externally visible effects (network calls and writes to
standard output).
-/

namespace GettingStarted

/-- One `{role, content}` entry of the request's message list. -/
structure Message where
  role : String
  content : String
deriving DecidableEq, Repr

/-- The request value built by the script: a model identifier, a maximum
output-token budget, and a message list. -/
structure Request where
  model : String
  max_tokens : Nat
  messages : List Message
deriving DecidableEq, Repr

/-- A content segment of a response: a tagged variant that is either a text
block or a block of some other kind (`anthropic.types.TextBlock` versus the
other block types). -/
inductive ContentBlock where
  | TextBlock (text : String)
  | OtherBlock (kind : String)
deriving DecidableEq, Repr

/-- A response: an ordered sequence of content segments. -/
structure Response where
  content : List ContentBlock
deriving DecidableEq, Repr

/-- The failures the remote service / client library can raise on a call:
authentication failure, transport failure, rate limiting, or another
remote-service error. -/
inductive ApiError where
  | authenticationError
  | transportError
  | rateLimitError
  | serverError (status : Nat)
deriving DecidableEq, Repr

/-- An uncaught Python-level failure of the script: an error raised by the
API call, or the out-of-bounds failure of `response.content[0]`. -/
inductive PyError where
  | apiError (e : ApiError)
  | indexError
deriving DecidableEq, Repr

/-- An externally visible side effect of one run: an outbound network call
carrying a request, or one `print` writing one line to standard output. -/
inductive Effect where
  | networkCall (req : Request)
  | printLine (s : String)
deriving DecidableEq, Repr

/-- The outcome of one run of the script: the uncaught error if one
propagated to the process boundary (`Except.ok ()` means exit status 0),
and the ordered trace of external effects performed before termination. -/
structure RunResult where
  result : Except PyError Unit
  trace : List Effect
deriving Repr

/-- The client object: it merely stores the credential it was given. -/
structure Client where
  api_key : Option String
deriving DecidableEq, Repr

/-- Modelled from the spec: `python-dotenv`'s `load_dotenv()`, which loads
key-value pairs from a `.env` file into the process environment without
overriding variables that are already set.  The result is the updated
environment. -/
def load_dotenv (env : String → Option String) (dotenvFile : List (String × String)) :
    String → Option String :=
  fun key =>
    match env key with
    | some v => some v
    | none => dotenvFile.lookup key

/-- `os.getenv`: look a key up in the process environment. -/
def os_getenv (env : String → Option String) (key : String) : Option String :=
  env key

/-- Modelled from the spec: the `Anthropic(api_key=...)` constructor performs
no validation of the credential; it only stores it. -/
def Anthropic_init (api_key : Option String) : Client :=
  { api_key := api_key }

/-- Modelled from the spec: `client.messages.create`.  Absence or emptiness
of the credential surfaces as an authentication failure at call time, before
any network call is attempted; otherwise exactly one network call is issued
and the remote service (the oracle `service`) decides the outcome.  The
second component is the list of network calls issued. -/
def messages_create (client : Client) (service : Request → Except ApiError Response)
    (req : Request) : Except ApiError Response × List Effect :=
  match client.api_key with
  | none => (Except.error ApiError.authenticationError, [])
  | some k =>
    if k = "" then (Except.error ApiError.authenticationError, [])
    else (service req, [Effect.networkCall req])

/-- The request the script constructs: the fixed model identifier, the
fixed maximum-token budget, and a single hard-coded user message. -/
def getting_started_request : Request :=
  { model := "claude-haiku-4-5-20251001"
  , max_tokens := 8000
  , messages :=
      [ { role := "user"
        , content := "What should I search for to find the latest developments in C++?" } ] }

/-- The whole script, line by line: `load_dotenv()`; read the credential;
construct the client; call `messages.create`; take `response.content[0]`
(an index failure when the content list is empty); print the block's text
when it is a `TextBlock`, otherwise do nothing. -/
def run (env : String → Option String) (dotenvFile : List (String × String))
    (service : Request → Except ApiError Response) : RunResult :=
  let env' := load_dotenv env dotenvFile
  let my_api_key := os_getenv env' "ANTHROPIC_API_KEY"
  let client := Anthropic_init my_api_key
  match messages_create client service getting_started_request with
  | (Except.error e, tr) => { result := Except.error (PyError.apiError e), trace := tr }
  | (Except.ok response, tr) =>
    match response.content.head? with
    | none => { result := Except.error PyError.indexError, trace := tr }
    | some content_block =>
      match content_block with
      | ContentBlock.TextBlock t => { result := Except.ok (), trace := tr ++ [Effect.printLine t] }
      | ContentBlock.OtherBlock _ => { result := Except.ok (), trace := tr }

/-- Everything the run writes to standard output, in order: the arguments of
its `print` effects. -/
def stdoutOf (r : RunResult) : List String :=
  r.trace.filterMap fun e =>
    match e with
    | Effect.printLine s => some s
    | Effect.networkCall _ => none

/-- The requests of the outbound network calls of a run, in order. -/
def networkCallsOf (r : RunResult) : List Request :=
  r.trace.filterMap fun e =>
    match e with
    | Effect.networkCall req => some req
    | Effect.printLine _ => none

/-- The process exit status: 0 on normal termination, 1 when an uncaught
error propagates to the process boundary. -/
def exitCode (r : RunResult) : Nat :=
  match r.result with
  | Except.ok _ => 0
  | Except.error _ => 1

/-- The credential the script ends up using: the value of
`ANTHROPIC_API_KEY` in the environment after `load_dotenv`. -/
def resolvedKey (env : String → Option String) (dotenvFile : List (String × String)) :
    Option String :=
  load_dotenv env dotenvFile "ANTHROPIC_API_KEY"

/-! Concrete fixtures used to instantiate the theorems below. -/

/-- An environment where the credential variable is set to a valid-looking key. -/
def envWithKey : String → Option String :=
  fun key => if key = "ANTHROPIC_API_KEY" then some "valid-key-123" else none

/-- An environment where no variable is set. -/
def envEmpty : String → Option String :=
  fun _ => none

/-- A service whose response starts with a text block. -/
def serviceText : Request → Except ApiError Response :=
  fun _ => Except.ok
    { content := [ContentBlock.TextBlock "Here is a search suggestion.",
                  ContentBlock.OtherBlock "tool_use"] }

/-- A service whose response starts with a non-text block. -/
def serviceTool : Request → Except ApiError Response :=
  fun _ => Except.ok { content := [ContentBlock.OtherBlock "tool_use"] }

/-- A service whose response has an empty content list. -/
def serviceNoContent : Request → Except ApiError Response :=
  fun _ => Except.ok { content := [] }

/-- A service that throttles the request. -/
def serviceRateLimited : Request → Except ApiError Response :=
  fun _ => Except.error ApiError.rateLimitError

/-- C1: for every response whose first content segment is a text segment, the
run writes exactly that segment's text to standard output — it is the only
text written — and the process exits successfully. -/
theorem c1_first_text_block_printed_verbatim (env : String → Option String)
    (dotenvFile : List (String × String)) (service : Request → Except ApiError Response)
    (k : String) (resp : Response) (t : String) (rest : List ContentBlock)
    (hk : resolvedKey env dotenvFile = some k) (hne : k ≠ "")
    (hs : service getting_started_request = Except.ok resp)
    (hc : resp.content = ContentBlock.TextBlock t :: rest) :
    stdoutOf (run env dotenvFile service) = [t] ∧
      exitCode (run env dotenvFile service) = 0 := by
  have hk2 : load_dotenv env dotenvFile "ANTHROPIC_API_KEY" = some k := hk
  simp [run, Anthropic_init, messages_create, os_getenv, hk2, hne, hs, hc,
    stdoutOf, exitCode]

/-- Witness for C1 at a concrete environment and service. -/
theorem c1_witness :
    stdoutOf (run envWithKey [] serviceText) = ["Here is a search suggestion."] ∧
      exitCode (run envWithKey [] serviceText) = 0 :=
  c1_first_text_block_printed_verbatim envWithKey [] serviceText "valid-key-123"
    { content := [ContentBlock.TextBlock "Here is a search suggestion.",
                  ContentBlock.OtherBlock "tool_use"] }
    "Here is a search suggestion." [ContentBlock.OtherBlock "tool_use"]
    (by decide) (by decide) rfl rfl

/-- C2: for every response whose content sequence is non-empty but whose first
segment is not a text segment, the run writes nothing to standard output and
terminates successfully (no error raised). -/
theorem c2_non_text_first_block_silent_success (env : String → Option String)
    (dotenvFile : List (String × String)) (service : Request → Except ApiError Response)
    (k : String) (resp : Response) (knd : String) (rest : List ContentBlock)
    (hk : resolvedKey env dotenvFile = some k) (hne : k ≠ "")
    (hs : service getting_started_request = Except.ok resp)
    (hc : resp.content = ContentBlock.OtherBlock knd :: rest) :
    stdoutOf (run env dotenvFile service) = [] ∧
      (run env dotenvFile service).result = Except.ok () ∧
      exitCode (run env dotenvFile service) = 0 := by
  have hk2 : load_dotenv env dotenvFile "ANTHROPIC_API_KEY" = some k := hk
  simp [run, Anthropic_init, messages_create, os_getenv, hk2, hne, hs, hc,
    stdoutOf, exitCode]

/-- Witness for C2 at a concrete environment and service. -/
theorem c2_witness :
    stdoutOf (run envWithKey [] serviceTool) = [] ∧
      (run envWithKey [] serviceTool).result = Except.ok () ∧
      exitCode (run envWithKey [] serviceTool) = 0 :=
  c2_non_text_first_block_silent_success envWithKey [] serviceTool "valid-key-123"
    { content := [ContentBlock.OtherBlock "tool_use"] } "tool_use" []
    (by decide) (by decide) rfl rfl

/-- C3: for every response whose content sequence is empty, the extraction
step `response.content[0]` raises an index failure and nothing is written to
standard output. -/
theorem c3_empty_content_index_failure (env : String → Option String)
    (dotenvFile : List (String × String)) (service : Request → Except ApiError Response)
    (k : String) (resp : Response)
    (hk : resolvedKey env dotenvFile = some k) (hne : k ≠ "")
    (hs : service getting_started_request = Except.ok resp)
    (hc : resp.content = []) :
    (run env dotenvFile service).result = Except.error PyError.indexError ∧
      stdoutOf (run env dotenvFile service) = [] := by
  have hk2 : load_dotenv env dotenvFile "ANTHROPIC_API_KEY" = some k := hk
  simp [run, Anthropic_init, messages_create, os_getenv, hk2, hne, hs, hc, stdoutOf]

/-- Witness for C3 at a concrete environment and service. -/
theorem c3_witness :
    (run envWithKey [] serviceNoContent).result = Except.error PyError.indexError ∧
      stdoutOf (run envWithKey [] serviceNoContent) = [] :=
  c3_empty_content_index_failure envWithKey [] serviceNoContent "valid-key-123"
    { content := [] } (by decide) (by decide) rfl rfl

/-- C4: if the credential variable is absent or empty, client construction
still succeeds (the credential is not validated before the call); the failure
surfaces as an authentication failure at the API call, the process exits with
a non-zero status, and standard output remains empty. -/
theorem c4_missing_credential_auth_failure_at_call_time (env : String → Option String)
    (dotenvFile : List (String × String)) (service : Request → Except ApiError Response)
    (hk : resolvedKey env dotenvFile = none ∨ resolvedKey env dotenvFile = some "") :
    (Anthropic_init (resolvedKey env dotenvFile)).api_key = resolvedKey env dotenvFile ∧
      (run env dotenvFile service).result =
        Except.error (PyError.apiError ApiError.authenticationError) ∧
      exitCode (run env dotenvFile service) = 1 ∧
      stdoutOf (run env dotenvFile service) = [] := by
  rcases hk with hk | hk <;>
  · have hk2 : load_dotenv env dotenvFile "ANTHROPIC_API_KEY" = _ := hk
    simp [run, Anthropic_init, messages_create, os_getenv, hk2, stdoutOf, exitCode]

/-- Witness for C4 at a concrete (empty) environment. -/
theorem c4_witness :
    (Anthropic_init (resolvedKey envEmpty [])).api_key = resolvedKey envEmpty [] ∧
      (run envEmpty [] serviceText).result =
        Except.error (PyError.apiError ApiError.authenticationError) ∧
      exitCode (run envEmpty [] serviceText) = 1 ∧
      stdoutOf (run envEmpty [] serviceText) = [] :=
  c4_missing_credential_auth_failure_at_call_time envEmpty [] serviceText
    (Or.inl (by decide))

/-- C5: the script catches nothing.  Every error of the API call propagates
unchanged to the process boundary, and every run that ends in an uncaught
error exits with a non-zero status having printed nothing. -/
theorem c5_uncaught_failures_propagate (env : String → Option String)
    (dotenvFile : List (String × String)) (service : Request → Except ApiError Response) :
    (∀ k e, resolvedKey env dotenvFile = some k → k ≠ "" →
        service getting_started_request = Except.error e →
        (run env dotenvFile service).result = Except.error (PyError.apiError e)) ∧
    (∀ e, (run env dotenvFile service).result = Except.error e →
        exitCode (run env dotenvFile service) = 1 ∧
        stdoutOf (run env dotenvFile service) = []) := by
  constructor
  · intro k e hk hne hs
    have hk2 : load_dotenv env dotenvFile "ANTHROPIC_API_KEY" = some k := hk
    simp [run, Anthropic_init, messages_create, os_getenv, hk2, hne, hs]
  · intro e hfail
    rcases hmk : load_dotenv env dotenvFile "ANTHROPIC_API_KEY" with _ | k
    · simp [run, Anthropic_init, messages_create, os_getenv, hmk, stdoutOf, exitCode]
    · by_cases hne : k = ""
      · simp [run, Anthropic_init, messages_create, os_getenv, hmk, hne, stdoutOf, exitCode]
      · rcases hs : service getting_started_request with e2 | resp
        · simp [run, Anthropic_init, messages_create, os_getenv, hmk, hne, hs,
            stdoutOf, exitCode]
        · rcases hc : resp.content with _ | ⟨b, rest⟩
          · simp [run, Anthropic_init, messages_create, os_getenv, hmk, hne, hs, hc,
              stdoutOf, exitCode]
          · exfalso
            rcases b with t | knd <;>
            · have hok : (run env dotenvFile service).result = Except.ok () := by
                simp [run, Anthropic_init, messages_create, os_getenv, hmk, hne, hs, hc]
              rw [hok] at hfail
              exact Except.noConfusion hfail

/-- Witness for C5 at a concrete environment and a throttling service. -/
theorem c5_witness :
    (run envWithKey [] serviceRateLimited).result =
        Except.error (PyError.apiError ApiError.rateLimitError) ∧
      exitCode (run envWithKey [] serviceRateLimited) = 1 ∧
      stdoutOf (run envWithKey [] serviceRateLimited) = [] := by
  have h := c5_uncaught_failures_propagate envWithKey [] serviceRateLimited
  have hprop := h.1 "valid-key-123" ApiError.rateLimitError (by decide) (by decide) rfl
  exact ⟨hprop, h.2 (PyError.apiError ApiError.rateLimitError) hprop⟩

/-- C6: every outbound network call of every run carries the fixed request,
whose message list has exactly one entry, a user-authored message; in
particular the message list is non-empty and begins with a user message. -/
theorem c6_request_has_single_user_message (env : String → Option String)
    (dotenvFile : List (String × String)) (service : Request → Except ApiError Response)
    (req : Request) (h : Effect.networkCall req ∈ (run env dotenvFile service).trace) :
    req = getting_started_request ∧
      req.messages.length = 1 ∧
      req.messages.head? = some
        { role := "user"
        , content := "What should I search for to find the latest developments in C++?" } := by
  have hreq : req = getting_started_request := by
    rcases hmk : load_dotenv env dotenvFile "ANTHROPIC_API_KEY" with _ | k
    · simp [run, Anthropic_init, messages_create, os_getenv, hmk] at h
    · by_cases hne : k = ""
      · simp [run, Anthropic_init, messages_create, os_getenv, hmk, hne] at h
      · rcases hs : service getting_started_request with e2 | resp
        · simp [run, Anthropic_init, messages_create, os_getenv, hmk, hne, hs] at h
          exact h
        · rcases hc : resp.content with _ | ⟨b, rest⟩
          · simp [run, Anthropic_init, messages_create, os_getenv, hmk, hne, hs, hc] at h
            exact h
          · rcases b with t | knd <;>
              simp [run, Anthropic_init, messages_create, os_getenv, hmk, hne, hs, hc] at h <;>
              exact h
  subst hreq
  refine ⟨rfl, by decide, by decide⟩

/-- Witness for C6 at a concrete run that issues a network call. -/
theorem c6_witness :
    getting_started_request = getting_started_request ∧
      getting_started_request.messages.length = 1 ∧
      getting_started_request.messages.head? = some
        { role := "user"
        , content := "What should I search for to find the latest developments in C++?" } :=
  c6_request_has_single_user_message envWithKey [] serviceText getting_started_request
    (by decide)

/-- C7 counterexample: when the credential is absent the run issues no
network call at all, so "exactly one outbound network call is issued" on
every run is false. -/
theorem c7_counterexample :
    (networkCallsOf (run envEmpty [] serviceText)).length = 0 ∧
      (networkCallsOf (run envEmpty [] serviceText)).length ≠ 1 := by
  decide

/-- C7 (amended): on every run, at most one outbound network call is issued
and at most one write is made to standard output; exactly one network call is
issued whenever the credential resolves to a present, non-empty value. -/
theorem c7_amended_bounded_effects (env : String → Option String)
    (dotenvFile : List (String × String)) (service : Request → Except ApiError Response) :
    (networkCallsOf (run env dotenvFile service)).length ≤ 1 ∧
      (stdoutOf (run env dotenvFile service)).length ≤ 1 ∧
      (∀ k, resolvedKey env dotenvFile = some k → k ≠ "" →
        (networkCallsOf (run env dotenvFile service)).length = 1) := by
  rcases hmk : load_dotenv env dotenvFile "ANTHROPIC_API_KEY" with _ | k
  · refine ⟨?_, ?_, fun k hk hne => ?_⟩
    · simp [run, Anthropic_init, messages_create, os_getenv, hmk, networkCallsOf]
    · simp [run, Anthropic_init, messages_create, os_getenv, hmk, stdoutOf]
    · exact absurd (hmk.symm.trans hk) (by simp)
  · by_cases hne : k = ""
    · refine ⟨?_, ?_, fun q hq hqne => ?_⟩
      · simp [run, Anthropic_init, messages_create, os_getenv, hmk, hne, networkCallsOf]
      · simp [run, Anthropic_init, messages_create, os_getenv, hmk, hne, stdoutOf]
      · have : q = k := by
          have := hmk.symm.trans hq
          simpa using this.symm
        exact absurd (this.trans hne) hqne
    · rcases hs : service getting_started_request with e2 | resp
      · refine ⟨?_, ?_, fun q hq hqne => ?_⟩ <;>
          simp [run, Anthropic_init, messages_create, os_getenv, hmk, hne, hs,
            networkCallsOf, stdoutOf]
      · rcases hc : resp.content with _ | ⟨b, rest⟩
        · refine ⟨?_, ?_, fun q hq hqne => ?_⟩ <;>
            simp [run, Anthropic_init, messages_create, os_getenv, hmk, hne, hs, hc,
              networkCallsOf, stdoutOf]
        · rcases b with t | knd <;>
          · refine ⟨?_, ?_, fun q hq hqne => ?_⟩ <;>
              simp [run, Anthropic_init, messages_create, os_getenv, hmk, hne, hs, hc,
                networkCallsOf, stdoutOf]

/-- Witness for the amended C7: a run with a present, non-empty credential
issues exactly one network call. -/
theorem c7_witness :
    (networkCallsOf (run envWithKey [] serviceText)).length = 1 := by
  have h := c7_amended_bounded_effects envWithKey [] serviceText
  exact h.2.2 "valid-key-123" (by decide) (by decide)

/-- A service like `serviceText` but with a different tail after the same
first content block. -/
def serviceTextLong : Request → Except ApiError Response :=
  fun _ => Except.ok
    { content := [ContentBlock.TextBlock "Here is a search suggestion.",
                  ContentBlock.TextBlock "And a second block.",
                  ContentBlock.OtherBlock "thinking"] }

/-- C8: only the first segment of the response's content is consumed: two
runs whose responses agree on the first content element produce identical
standard output, whatever the later segments are. -/
theorem c8_output_depends_only_on_first_segment (env : String → Option String)
    (dotenvFile : List (String × String))
    (service1 service2 : Request → Except ApiError Response) (resp1 resp2 : Response)
    (h1 : service1 getting_started_request = Except.ok resp1)
    (h2 : service2 getting_started_request = Except.ok resp2)
    (hh : resp1.content.head? = resp2.content.head?) :
    stdoutOf (run env dotenvFile service1) = stdoutOf (run env dotenvFile service2) := by
  rcases hmk : load_dotenv env dotenvFile "ANTHROPIC_API_KEY" with _ | k
  · simp [run, Anthropic_init, messages_create, os_getenv, hmk, stdoutOf]
  · by_cases hne : k = ""
    · simp [run, Anthropic_init, messages_create, os_getenv, hmk, hne, stdoutOf]
    · rcases hb : resp1.content.head? with _ | b
      · have hb2 : resp2.content.head? = none := hh ▸ hb
        simp [run, Anthropic_init, messages_create, os_getenv, hmk, hne, h1, h2,
          hb, hb2, stdoutOf]
      · have hb2 : resp2.content.head? = some b := hh ▸ hb
        rcases b with t | knd <;>
          simp [run, Anthropic_init, messages_create, os_getenv, hmk, hne, h1, h2,
            hb, hb2, stdoutOf]

/-- Witness for C8 at two concrete services agreeing on the first block. -/
theorem c8_witness :
    stdoutOf (run envWithKey [] serviceText) = stdoutOf (run envWithKey [] serviceTextLong) :=
  c8_output_depends_only_on_first_segment envWithKey [] serviceText serviceTextLong
    { content := [ContentBlock.TextBlock "Here is a search suggestion.",
                  ContentBlock.OtherBlock "tool_use"] }
    { content := [ContentBlock.TextBlock "Here is a search suggestion.",
                  ContentBlock.TextBlock "And a second block.",
                  ContentBlock.OtherBlock "thinking"] }
    rfl rfl (by decide)

/-- An environment whose only difference from `envWithKey` is the credential
value. -/
def envWithOtherKey : String → Option String :=
  fun key => if key = "ANTHROPIC_API_KEY" then some "other-key-456" else none

/-- C9: the credential never reaches the output: two runs that differ only in
the (present, non-empty) credential value and face the same service produce
the very same result and effect trace, so standard output is identical and
independent of the credential. -/
theorem c9_output_independent_of_credential (env1 env2 : String → Option String)
    (dotenvFile : List (String × String)) (service : Request → Except ApiError Response)
    (k1 k2 : String)
    (h1 : resolvedKey env1 dotenvFile = some k1) (hne1 : k1 ≠ "")
    (h2 : resolvedKey env2 dotenvFile = some k2) (hne2 : k2 ≠ "") :
    run env1 dotenvFile service = run env2 dotenvFile service := by
  have h1b : load_dotenv env1 dotenvFile "ANTHROPIC_API_KEY" = some k1 := h1
  have h2b : load_dotenv env2 dotenvFile "ANTHROPIC_API_KEY" = some k2 := h2
  simp [run, Anthropic_init, messages_create, os_getenv, h1b, h2b, hne1, hne2]

/-- Witness for C9 at two concrete environments differing only in the key. -/
theorem c9_witness :
    run envWithKey [] serviceText = run envWithOtherKey [] serviceText :=
  c9_output_independent_of_credential envWithKey envWithOtherKey [] serviceText
    "valid-key-123" "other-key-456" (by decide) (by decide) (by decide) (by decide)

/-- C10: `load_dotenv` runs before the credential is read, and it fills in
variables from the `.env` file without overriding ones already present: when
the process environment lacks `ANTHROPIC_API_KEY` but the `.env` file defines
it, the `.env` value becomes the credential; a value already in the
environment survives unchanged. -/
theorem c10_dotenv_fills_without_override (env : String → Option String)
    (dotenvFile : List (String × String)) (key v : String) :
    (env key = none → dotenvFile.lookup key = some v →
        load_dotenv env dotenvFile key = some v) ∧
      (env key = some v → load_dotenv env dotenvFile key = some v) ∧
      (env "ANTHROPIC_API_KEY" = none →
        dotenvFile.lookup "ANTHROPIC_API_KEY" = some v →
        resolvedKey env dotenvFile = some v) ∧
      (env "ANTHROPIC_API_KEY" = some v → resolvedKey env dotenvFile = some v) := by
  refine ⟨fun h1 h2 => ?_, fun h1 => ?_, fun h1 h2 => ?_, fun h1 => ?_⟩ <;>
    simp_all [load_dotenv, resolvedKey]

/-- Witness for C10: a `.env` value is used when the variable is unset, and
is ignored when the variable is already set. -/
theorem c10_witness :
    resolvedKey envEmpty [("ANTHROPIC_API_KEY", "dotenv-key-789")] = some "dotenv-key-789" ∧
      resolvedKey envWithKey [("ANTHROPIC_API_KEY", "dotenv-key-789")] = some "valid-key-123" := by
  constructor
  · exact (c10_dotenv_fills_without_override envEmpty
      [("ANTHROPIC_API_KEY", "dotenv-key-789")] "ANTHROPIC_API_KEY" "dotenv-key-789").2.2.1
      (by decide) (by decide)
  · exact (c10_dotenv_fills_without_override envWithKey
      [("ANTHROPIC_API_KEY", "dotenv-key-789")] "ANTHROPIC_API_KEY" "valid-key-123").2.2.2
      (by decide)

end GettingStarted
